import Mathlib

/-!
Shallow embedding of the qb-pharma deployment scripts
(`src/deploy_simple.py` and `src/upload.py`) and proofs about them.

The two Python scripts are straight-line pipelines:
archive the build directory, upload the archive with `curl`,
emit a shell deploy script, and unlink the temporary archive in a
`finally` block.  We embed them as pure functions from an environment
(describing the filesystem, the random temporary-file names handed out
by `tempfile.NamedTemporaryFile`, the result of the `curl` subprocess,
and the points where an unexpected exception may be raised) to a trace
of observable events plus a process exit code.
-/

namespace QbPharma

/-- `SERVER_IP` constant, `deploy_simple.py` line 13 / `upload.py` line 15. -/
def SERVER_IP : String := "209.38.78.122"

/-- `BUILD_DIR` constant, `deploy_simple.py` line 12 / `upload.py` line 18. -/
def BUILD_DIR : String := "./frontend/dist"

/-- `USERNAME` constant, `upload.py` line 16. -/
def USERNAME : String := "root"

/-- One entry of the recursive listing (`Path.rglob('*')`) of the build
directory: its path relative to the build-directory root, as a list of
path components, and whether it is a regular file (`Path.is_file()`). -/
structure FSEntry where
  rel : List String
  isFile : Bool
deriving DecidableEq

/-- The build directory as the scripts see it: its own path (`root`),
whether it exists (`Path.exists()`), and its recursive listing. -/
structure BuildDir where
  root : List String
  present : Bool
  entries : List FSEntry
deriving DecidableEq

/-- `PurePath.relative_to`: strip `base` off the front of `p`;
`none` models the `ValueError` raised when `p` is not below `base`. -/
def stripRoot : List String → List String → Option (List String)
  | [], p => some p
  | _ :: _, [] => none
  | b :: bs, x :: xs => if x = b then stripRoot bs xs else none

/-- The absolute paths produced by `build_path.rglob('*')`, paired with
their `is_file()` status (`deploy_simple.py` line 28 / `upload.py` line 42). -/
def rglobAll (bd : BuildDir) : List (List String × Bool) :=
  bd.entries.map (fun e => (bd.root ++ e.rel, e.isFile))

/-- The archive member names produced by the tar loop
(`deploy_simple.py` lines 28-31 / `upload.py` lines 42-46): every
`is_file()` entry of the recursive listing is added under
`arcname = file_path.relative_to(build_path)`; everything else is skipped. -/
def archiveEntries (bd : BuildDir) : List (List String) :=
  (rglobAll bd).filterMap (fun pe => if pe.2 then stripRoot bd.root pe.1 else none)

/-- Observable events of a pipeline run. -/
inductive Event where
  | info (s : String)
  | errorMsg (s : String)
  | tempCreate (name : String)
  | tarWrite (name : String) (entries : List (List String))
  | netUpload (cmd : String)
  | fileWrite (name : String) (content : String)
  | unlink (name : String)
deriving DecidableEq

/-- Outcome of a Python call: a normal return or a raised exception. -/
inductive StepOutcome (α : Type) where
  | ret (v : α)
  | exc (msg : String)
deriving DecidableEq

/-- How `json.loads(result.stdout)` plays out in `deploy_simple.py`
lines 58-60: either a `JSONDecodeError`, or a parsed object summarised
by the truthiness of `response.get('success')` and the value of
`response.get('link')` (absent key modelled as `none`). -/
inductive ParseOutcome where
  | parseError
  | parsed (succOk : Bool) (link : Option String)
deriving DecidableEq

/-- Model of Python `str.strip()`: drop whitespace from both ends. -/
def pyStrip (s : String) : String :=
  ⟨((s.data.dropWhile Char.isWhitespace).reverse.dropWhile Char.isWhitespace).reverse⟩

/-- Model of `os.path.basename`: the part after the last slash. -/
def pyBasename (p : String) : String :=
  (p.splitOn "/").getLastD ""

/-! ### Script templates

The three f-string templates, transcribed byte for byte (Python `{{`/`}}`
render as literal braces, written `\x7b`/`\x7d` here; Python `\\$` renders
as `\$`).  Each template is split at its interpolation points so that the
interpolated values appear as explicit `++` arguments, exactly where the
f-string substitutes them. -/

/-- `deploy_simple.py` lines 64-77: the `auto_deploy.sh` template up to the
download step. -/
def autoA : String := "#!/bin/bash\n# QB Pharma Auto-Deploy Script\n\necho \"Starting QB Pharma deployment...\"\n\n# Install nginx\napt update\napt install -y nginx wget\n\n# Create directory\nmkdir -p /var/www/qb-pharma\ncd /var/www/qb-pharma\n\n# Download and extract\n"

/-- The download step of both `wget`-based templates up to the quoted URL
(`deploy_simple.py` line 78 / `upload.py` line 151). -/
def wget_pre : String := "wget -O qb-pharma.tar.gz \""

/-- `deploy_simple.py` lines 79-85: from the extract step to the
`listen 80;` line of the nginx block. -/
def autoB : String := "tar -xzf qb-pharma.tar.gz\nchown -R www-data:www-data /var/www/qb-pharma\n\n# Configure nginx\ncat > /etc/nginx/sites-available/qb-pharma << 'EOF'\nserver \x7b\n    listen 80;\n"

/-- The `server_name` line of every template up to the interpolated
server address (`deploy_simple.py` line 86, `upload.py` lines 87 and 159). -/
def server_name_pre : String := "    server_name "

/-- `deploy_simple.py` lines 87-107: the rest of the template up to the
final `http://` of the access URL. -/
def autoC : String := "    root /var/www/qb-pharma;\n    index index.html;\n    \n    location / \x7b\n        try_files $uri $uri/ /index.html;\n    \x7d\n    \n    location ~* \\.(js|css|png|jpg|jpeg|gif|ico|svg)$ \x7b\n        expires 1y;\n        add_header Cache-Control \"public, immutable\";\n    \x7d\n\x7d\nEOF\n\n# Enable site\nln -sf /etc/nginx/sites-available/qb-pharma /etc/nginx/sites-enabled/\nrm -f /etc/nginx/sites-enabled/default\nsystemctl restart nginx\n\necho \"QB Pharma deployed successfully!\"\necho \"Access at: http://"

/-- The `deploy_script` f-string of `deploy_simple.py` lines 64-108,
rendered with a download URL (its other interpolations are the
`SERVER_IP` constant). -/
def auto_deploy_script (download_url : String) : String :=
  autoA ++ wget_pre ++ download_url ++ "\"\n" ++ autoB ++
    server_name_pre ++ SERVER_IP ++ ";\n" ++ autoC ++ SERVER_IP ++ "\"\n"

/-- `upload.py` lines 65-77: the temporary deploy-script template up to
the download step. -/
def fullA : String := "#!/bin/bash\n# QB Pharma deployment script\nset -e\n\necho \"📦 Installing Nginx...\"\napt update\napt install -y nginx curl\n\necho \"📁 Setting up directories...\"\nmkdir -p /var/www/qb-pharma\ncd /var/www/qb-pharma\n\necho \"📥 Downloading and extracting files...\"\n"

/-- `upload.py` line 78: the download step up to the interpolated
archive path inside `$(basename ...)`. -/
def curl_pre : String := "curl -o qb-pharma.tar.gz \"https://transfer.sh/$(basename "

/-- `upload.py` lines 79-86: from the extract step to the `listen 80;`
line of the nginx block. -/
def fullB : String := "tar -xzf qb-pharma.tar.gz\nchown -R www-data:www-data /var/www/qb-pharma\nchmod -R 755 /var/www/qb-pharma\n\necho \"⚙️ Configuring Nginx...\"\ncat > /etc/nginx/sites-available/qb-pharma << 'EOF'\nserver \x7b\n    listen 80;\n"

/-- `upload.py` lines 88-120: the rest of the template up to the final
`http://` of the availability message. -/
def fullC : String := "    root /var/www/qb-pharma;\n    index index.html;\n\n    gzip on;\n    gzip_vary on;\n    gzip_min_length 1024;\n    gzip_types text/plain text/css application/json application/javascript text/xml application/xml application/xml+rss text/javascript;\n\n    location / \x7b\n        try_files \\$uri \\$uri/ /index.html;\n        add_header Cache-Control \"no-cache, no-store, must-revalidate\";\n        add_header Pragma \"no-cache\";\n        add_header Expires \"0\";\n    \x7d\n\n    location ~* \\.(js|css|png|jpg|jpeg|gif|ico|svg)\\$ \x7b\n        expires 1y;\n        add_header Cache-Control \"public, immutable\";\n    \x7d\n\n    add_header X-Frame-Options \"SAMEORIGIN\" always;\n    add_header X-Content-Type-Options \"nosniff\" always;\n    add_header X-XSS-Protection \"1; mode=block\" always;\n\x7d\nEOF\n\nln -sf /etc/nginx/sites-available/qb-pharma /etc/nginx/sites-enabled/\nrm -f /etc/nginx/sites-enabled/default\nnginx -t\nsystemctl restart nginx\n\necho \"🎉 Deployment complete!\"\necho \"🌐 QB Pharma is now available at: http://"

/-- The `deploy_script` f-string of `upload.py` lines 65-121, rendered
with the temporary archive's path (its other interpolations are the
`SERVER_IP` constant). -/
def deploy_script_full (archive_path : String) : String :=
  fullA ++ curl_pre ++ archive_path ++ ")\"\n" ++ fullB ++
    server_name_pre ++ SERVER_IP ++ ";\n" ++ fullC ++ SERVER_IP ++ "\"\n"

/-- `upload.py` lines 139-150: the `simple_deploy.sh` template up to the
download step. -/
def simpA : String := "#!/bin/bash\nset -e\necho \"🚀 QB Pharma Deployment Starting...\"\n\n# Install nginx\napt update && apt install -y nginx\n\n# Create directory\nmkdir -p /var/www/qb-pharma\ncd /var/www/qb-pharma\n\n# Download and extract\n"

/-- `upload.py` lines 152-158: from the extract step to the `listen 80;`
line of the nginx block. -/
def simpB : String := "tar -xzf qb-pharma.tar.gz\nchown -R www-data:www-data /var/www/qb-pharma\n\n# Configure nginx\ncat > /etc/nginx/sites-available/qb-pharma << 'NGINXEOF'\nserver \x7b\n    listen 80;\n"

/-- `upload.py` lines 160-173: the rest of the template up to the final
`http://` of the availability message. -/
def simpC : String := "    root /var/www/qb-pharma;\n    index index.html;\n    \n    location / \x7b\n        try_files \\$uri \\$uri/ /index.html;\n    \x7d\n\x7d\nNGINXEOF\n\nln -sf /etc/nginx/sites-available/qb-pharma /etc/nginx/sites-enabled/\nrm -f /etc/nginx/sites-enabled/default\nsystemctl restart nginx\n\necho \"🎉 QB Pharma deployed at http://"

/-- The `simple_deploy` f-string of `upload.py` lines 139-174, rendered
with a download URL (its other interpolations are the `SERVER_IP`
constant). -/
def simple_deploy (download_url : String) : String :=
  simpA ++ wget_pre ++ download_url ++ "\"\n" ++ simpB ++
    server_name_pre ++ SERVER_IP ++ ";\n" ++ simpC ++ SERVER_IP ++ "\"\n"

/-! ### Pipeline model of `deploy_simple.py` -/

/-- Environment of one run of `deploy_simple.py`: the build directory,
the random name handed out by `tempfile.NamedTemporaryFile` (line 24),
whether an unexpected exception is raised while writing the tar (lines
27-31, after the temporary file exists), the result of the `curl`
subprocess (line 49), how `json.loads` treats its stdout (lines 58-60),
and whether an unexpected exception is raised by the upload subprocess
call inside the `try` block. -/
structure SimpleEnv where
  build : BuildDir
  tmpName : String
  tarRaises : Bool
  curlCode : Int
  curlStdout : String
  curlStderr : String
  parse : ParseOutcome
  bodyRaises : Bool

/-- The `curl` command line of `deploy_simple.py` line 48. -/
def upload_cmd_simple (archive_path : String) : String :=
  "curl -F \"file=@" ++ archive_path ++ "\" https://file.io"

/-- `create_archive` of `deploy_simple.py` lines 15-34: print, check the
build directory, create the named temporary file, write the tar of every
regular file under the build directory (relative arcnames), and return
the archive path; a missing directory prints an error and returns `None`;
an exception while writing the tar propagates (the temporary file has
already been created). -/
def create_archive_s (env : SimpleEnv) : List Event × StepOutcome (Option String) :=
  if env.build.present = false then
    ([.info "Creating build archive...",
      .errorMsg ("Error: Build directory not found: " ++ BUILD_DIR)], .ret none)
  else if env.tarRaises then
    ([.info "Creating build archive...", .tempCreate env.tmpName], .exc "tar write raised")
  else
    ([.info "Creating build archive...", .tempCreate env.tmpName,
      .tarWrite env.tmpName (archiveEntries env.build),
      .info ("Archive created: " ++ env.tmpName)], .ret (some env.tmpName))

/-- The `try` body of `deploy_simple.py` lines 45-123, given the archive
path: run the upload subprocess; on exit status 0 parse the JSON response
and, when it has a truthy `success` and a truthy `link`, write
`auto_deploy.sh`; a `JSONDecodeError` or a failed upload only prints.
Returns the events and whether an unexpected exception escaped the body
(nothing in the body catches one). -/
def main_s_body (env : SimpleEnv) (archive_path : String) : List Event × Bool :=
  if env.bodyRaises then
    ([.info "Uploading to file.io...", .netUpload (upload_cmd_simple archive_path)], true)
  else
    let base := [Event.info "Uploading to file.io...",
                 Event.netUpload (upload_cmd_simple archive_path)]
    if env.curlCode = 0 then
      match env.parse with
      | .parseError => (base ++ [.errorMsg "Could not parse upload response"], false)
      | .parsed succOk link =>
        match link with
        | some url =>
          if succOk = true ∧ url ≠ "" then
            (base ++ [.info ("Download URL: " ++ url),
                      .fileWrite "auto_deploy.sh" (auto_deploy_script url)], false)
          else (base, false)
        | none => (base, false)
    else (base ++ [.errorMsg ("Upload failed: " ++ env.curlStderr)], false)

/-- `main` of `deploy_simple.py` lines 36-127 plus the `__main__` guard:
`create_archive`, early `return` (exit status 0) when it yields `None`,
then the `try` body with a `finally` that unlinks the archive; an
exception escaping `main` makes the interpreter exit with status 1. -/
def main_s (env : SimpleEnv) : List Event × Nat :=
  let hdr := [Event.info "QB Pharma Deployment Tool"]
  match create_archive_s env with
  | (ev1, .exc _) => (hdr ++ ev1, 1)
  | (ev1, .ret none) => (hdr ++ ev1, 0)
  | (ev1, .ret (some archive_path)) =>
    (hdr ++ ev1 ++ (main_s_body env archive_path).1 ++ [.unlink archive_path],
     if (main_s_body env archive_path).2 then 1 else 0)

/-! ### Pipeline model of `upload.py` -/

/-- Environment of one run of `upload.py`: the build directory, the two
random temporary names (archive, line 38; script, line 124), whether an
unexpected exception is raised while writing the tar (lines 41-46) or
while writing the temporary deploy script (lines 124-126), and the
result of `run_command` for the upload (line 132) — `run_command`
catches its own exceptions, so the subprocess never raises. -/
structure UploadEnv where
  build : BuildDir
  tmpArchive : String
  tmpScript : String
  tarRaises : Bool
  scriptRaises : Bool
  curlOk : Bool
  curlStdout : String
  curlStderr : String

/-- The `curl` command line of `upload.py` line 131. -/
def upload_cmd_transfer (archive_path : String) : String :=
  "curl -T \"" ++ archive_path ++ "\" https://transfer.sh/qb-pharma.tar.gz"

/-- `create_build_archive` of `upload.py` lines 28-49: identical logic to
`create_archive` of `deploy_simple.py`, with different messages. -/
def create_build_archive_s (env : UploadEnv) : List Event × StepOutcome (Option String) :=
  if env.build.present = false then
    ([.info "📦 Creating build archive...",
      .errorMsg ("❌ Build directory not found: " ++ BUILD_DIR)], .ret none)
  else if env.tarRaises then
    ([.info "📦 Creating build archive...", .tempCreate env.tmpArchive], .exc "tar write raised")
  else
    ([.info "📦 Creating build archive...", .tempCreate env.tmpArchive,
      .tarWrite env.tmpArchive (archiveEntries env.build),
      .info ("✅ Build archive created: " ++ env.tmpArchive)], .ret (some env.tmpArchive))

/-- The `try` body of `upload.py` lines 60-194 together with its
`except Exception` handler (lines 196-198), given the archive path:
render the full deploy script and write it to the temporary `.sh` file,
run the upload; when `run_command` succeeds and the stripped stdout is
non-empty, write `simple_deploy.sh` with the stripped stdout as download
URL and return `True`, otherwise print the failure and return `False`;
an unexpected exception is caught, printed, and turns into `False`. -/
def upload_body (env : UploadEnv) (archive_path : String) : List Event × Bool :=
  if env.scriptRaises then
    ([.tempCreate env.tmpScript,
      .errorMsg "❌ Deployment failed: script write raised"], false)
  else
    let evS := [Event.tempCreate env.tmpScript,
                Event.fileWrite env.tmpScript (deploy_script_full archive_path)]
    let evU := [Event.info "📤 Uploading archive to transfer.sh...",
                Event.netUpload (upload_cmd_transfer archive_path)]
    if env.curlOk = true ∧ pyStrip env.curlStdout ≠ "" then
      (evS ++ evU ++
        [.info ("✅ Archive uploaded: " ++ pyStrip env.curlStdout),
         .fileWrite "simple_deploy.sh" (simple_deploy (pyStrip env.curlStdout))], true)
    else
      (evS ++ evU ++ [.errorMsg ("❌ Failed to upload archive: " ++ env.curlStderr)], false)

/-- `upload_and_deploy` of `upload.py` lines 51-202: `create_build_archive`,
early `return False` when it yields `None`, then the `try` body with a
`finally` that unlinks the archive; an exception raised by
`create_build_archive` itself propagates uncaught. -/
def upload_and_deploy (env : UploadEnv) : List Event × StepOutcome Bool :=
  match create_build_archive_s env with
  | (ev1, .exc m) => (ev1, .exc m)
  | (ev1, .ret none) => (ev1, .ret false)
  | (ev1, .ret (some archive_path)) =>
    (ev1 ++ (upload_body env archive_path).1 ++ [.unlink archive_path],
     .ret (upload_body env archive_path).2)

/-- The `__main__` block of `upload.py` lines 204-215: run
`upload_and_deploy`; `True` prints the success summary and exits 0,
`False` prints the failure summary and calls `sys.exit(1)`; an escaped
exception makes the interpreter exit with status 1. -/
def upload_main (env : UploadEnv) : List Event × Nat :=
  let hdr := [Event.info "🚀 QB Pharma Deployment Tool"]
  match upload_and_deploy env with
  | (ev, .exc _) => (hdr ++ ev, 1)
  | (ev, .ret true) => (hdr ++ ev ++ [.info "✅ Deployment preparation completed!"], 0)
  | (ev, .ret false) => (hdr ++ ev ++ [.errorMsg "❌ Deployment failed!"], 1)

/-! ### Trace observations -/

/-- Is this event a network upload (the only subprocess either script
runs)? -/
def isNet : Event → Bool
  | .netUpload _ => true
  | _ => false

/-- Is this event a write of the file called `name`? -/
def isWriteOf (name : String) : Event → Bool
  | .fileWrite n _ => n = name
  | _ => false

/-- Is this event a write of any file? -/
def isAnyWrite : Event → Bool
  | .fileWrite _ _ => true
  | _ => false

/-- Is this event a printed error message? -/
def isErr : Event → Bool
  | .errorMsg _ => true
  | _ => false

/-- Is this event the creation of a temporary file called `name`? -/
def isTempCreateOf (name : String) : Event → Bool
  | .tempCreate n => n = name
  | _ => false

/-- Is this event the unlink of the file called `name`? -/
def isUnlinkOf (name : String) : Event → Bool
  | .unlink n => n = name
  | _ => false

/-- Did the run attempt the upload (invoke the curl subprocess)? -/
def uploadsAttempted (tr : List Event) : Bool := tr.any isNet

/-- Did the run write a file called `name`? -/
def writesFile (tr : List Event) (name : String) : Bool := tr.any (isWriteOf name)

/-- Did the run write any file at all? -/
def writesAnyFile (tr : List Event) : Bool := tr.any isAnyWrite

/-- Did the run print an error message? -/
def reportsError (tr : List Event) : Bool := tr.any isErr

/-- The contents written to the file called `name`, in order. -/
def writtenContents (tr : List Event) (name : String) : List String :=
  tr.filterMap (fun e => match e with
    | .fileWrite n c => if n = name then some c else none
    | _ => none)

/-- Was a temporary file called `name` created and never unlinked —
i.e. does it still exist on disk when the process exits? -/
def fileRemains (tr : List Event) (name : String) : Bool :=
  (tr.any (isTempCreateOf name)) && !(tr.any (isUnlinkOf name))

/-- The archive member lists of all tar files written during the run. -/
def tarEntriesWritten (tr : List Event) : List (List (List String)) :=
  tr.filterMap (fun e => match e with
    | .tarWrite _ es => some es
    | _ => none)

/-- `sub` occurs as a contiguous substring of `s`. -/
def containsStr (s sub : String) : Prop := ∃ a b, a ++ sub ++ b = s

/-- Did the archiver step raise an exception (as opposed to returning a
value, possibly the `None` sentinel)? -/
def raisesExc {α : Type} : StepOutcome α → Bool
  | .exc _ => true
  | .ret _ => false

/-! ### Concrete inputs used by witnesses and counterexamples -/

/-- A small build directory: two regular files (one nested) and one
subdirectory entry. -/
def bd0 : BuildDir :=
  ⟨["frontend", "dist"], true,
   [⟨["index.html"], true⟩, ⟨["assets"], false⟩, ⟨["assets", "app.js"], true⟩]⟩

/-- A build directory that does not exist. -/
def bdMissing : BuildDir := ⟨["frontend", "dist"], false, []⟩

/-- A build directory that exists but is empty. -/
def bdEmpty : BuildDir := ⟨["frontend", "dist"], true, []⟩

/-- Successful-run inputs for the two variants (claim C1 witness). -/
def envC1 : SimpleEnv := ⟨bd0, "/tmp/c1.tar.gz", false, 0, "", "", .parseError, false⟩

/-- Successful-archive inputs for `upload.py` (claim C1 witness). -/
def envC1U : UploadEnv := ⟨bd0, "/tmp/c1u.tar.gz", "/tmp/c1u.sh", false, false, true, "", ""⟩

/-- A run of `upload.py` whose upload fails (`run_command` reports
failure): used to exhibit the deploy script already written to the
temporary `.sh` file. -/
def envC2 : UploadEnv := ⟨bd0, "/tmp/arch2.tar.gz", "/tmp/script2.sh", false, false,
  false, "", "curl: (7) connection refused"⟩

/-- A failing-upload run of `deploy_simple.py` (claim C2 witness). -/
def envC2w : SimpleEnv := ⟨bd0, "/tmp/c2w.tar.gz", false, 23, "", "err", .parseError, false⟩

/-- A failing-upload run of `upload.py` (claim C2 witness). -/
def envC2wU : UploadEnv := ⟨bd0, "/tmp/c2wu.tar.gz", "/tmp/c2wu.sh", false, false, false, "", "err"⟩

/-- A run of `deploy_simple.py` in which the tar-writing step raises
after the temporary file has been created. -/
def envC3 : SimpleEnv := ⟨bd0, "/tmp/c3.tar.gz", true, 0, "", "", .parseError, false⟩

/-- A run of `upload.py` in which the tar-writing step raises after the
temporary file has been created. -/
def envC3U : UploadEnv := ⟨bd0, "/tmp/c3u.tar.gz", "/tmp/c3u.sh", true, false, true, "x", ""⟩

/-- A failed-upload run without a tar exception (claim C3 witness). -/
def envC3w : SimpleEnv := ⟨bd0, "/tmp/c3w.tar.gz", false, 23, "", "err", .parseError, false⟩

/-- A missing-build-directory run without a tar exception (claim C3
witness). -/
def envC3wU : UploadEnv := ⟨bdMissing, "/tmp/c3wu.tar.gz", "/tmp/c3wu.sh", false, false, false, "", ""⟩

/-- A missing-build-directory run of `deploy_simple.py`. -/
def envC4 : SimpleEnv := ⟨bdMissing, "/tmp/c4.tar.gz", false, 0, "", "", .parseError, false⟩

/-- A missing-build-directory run of `upload.py`. -/
def envC4U : UploadEnv := ⟨bdMissing, "/tmp/c4u.tar.gz", "/tmp/c4u.sh", false, false, true, "x", ""⟩

/-- A totally failing run of `deploy_simple.py` (missing build
directory). -/
def envC5 : SimpleEnv := ⟨bdMissing, "/tmp/c5.tar.gz", false, 0, "", "", .parseError, false⟩

/-- A totally failing run of `deploy_simple.py` (curl exits 23). -/
def envC5b : SimpleEnv := ⟨bd0, "/tmp/c5b.tar.gz", false, 23, "", "curl: (23) failed", .parseError, false⟩

/-- A missing-build-directory run of `deploy_simple.py` (claim C6). -/
def envC6 : SimpleEnv := ⟨bdMissing, "/tmp/c6.tar.gz", false, 0, "", "", .parseError, false⟩

/-- A missing-build-directory run of `upload.py` (claim C6). -/
def envC6U : UploadEnv := ⟨bdMissing, "/tmp/c6u.tar.gz", "/tmp/c6u.sh", false, false, true, "x", ""⟩

/-- A fixed retrieval URL for the determinism witness. -/
def u7 : String := "https://w.test/z"

/-- Two successful runs of `deploy_simple.py` differing in temporary
archive name and curl stdout, with the same parsed URL. -/
def envC7e1 : SimpleEnv :=
  ⟨bd0, "/tmp/c7a.tar.gz", false, 0, "resp", "", .parsed true (some u7), false⟩

/-- Second run for the determinism witness. -/
def envC7e2 : SimpleEnv :=
  ⟨bd0, "/tmp/c7b.tar.gz", false, 0, "other resp", "", .parsed true (some u7), false⟩

/-- Two successful runs of `upload.py` differing in temporary file names
and in surrounding whitespace of the curl stdout. -/
def envC7f1 : UploadEnv :=
  ⟨bd0, "/tmp/c7c.tar.gz", "/tmp/c7c.sh", false, false, true, "https://w.test/z\n", ""⟩

/-- Second `upload.py` run for the determinism witness. -/
def envC7f2 : UploadEnv :=
  ⟨bd0, "/tmp/c7d.tar.gz", "/tmp/c7d.sh", false, false, true, "  https://w.test/z \n", ""⟩

/-- The build directory of the end-to-end scenario: `index.html` and
`assets/app.js`. -/
def bd8 : BuildDir :=
  ⟨["frontend", "dist"], true,
   [⟨["index.html"], true⟩, ⟨["assets"], false⟩, ⟨["assets", "app.js"], true⟩]⟩

/-- The retrieval URL of the end-to-end scenario. -/
def u8 : String := "https://example.test/abc123"

/-- The end-to-end scenario run of `deploy_simple.py`: upload succeeds
and the response parses to the mock URL. -/
def env8 : SimpleEnv :=
  ⟨bd8, "/tmp/arch8.tar.gz", false, 0,
   "\x7b\"success\":true,\"link\":\"https://example.test/abc123\"\x7d", "",
   .parsed true (some u8), false⟩

/-- The end-to-end scenario run of `upload.py`: curl prints the mock URL. -/
def env8U : UploadEnv :=
  ⟨bd8, "/tmp/arch8u.tar.gz", "/tmp/script8.sh", false, false, true,
   "https://example.test/abc123\n", ""⟩

/-- A successful run of `upload.py` (claim C9 witness). -/
def envC9 : UploadEnv :=
  ⟨bd0, "/tmp/c9.tar.gz", "/tmp/c9.sh", false, false, true,
   "https://transfer.sh/qb-pharma.tar.gz\n", ""⟩

/-- An empty-build-directory run of `deploy_simple.py` whose upload
fails (claim C10 witness). -/
def envC10 : SimpleEnv := ⟨bdEmpty, "/tmp/c10.tar.gz", false, 7, "", "", .parseError, false⟩

/-- An empty-build-directory run of `upload.py` whose upload fails
(claim C10 witness). -/
def envC10U : UploadEnv :=
  ⟨bdEmpty, "/tmp/c10u.tar.gz", "/tmp/c10u.sh", false, false, false, "", ""⟩

/-! ### Helper lemmas -/

/-- `relative_to` undoes prepending the base: stripping `r` off `r ++ p`
gives back `p`. -/
theorem stripRoot_append (r p : List String) : stripRoot r (r ++ p) = some p := by
  induction r with
  | nil => rfl
  | cons b bs ih => simp [stripRoot, ih]

/-- The tar loop over a listing keeps exactly the regular files and maps
each to its path relative to the root. -/
theorem archiveEntries_aux (root : List String) (l : List FSEntry) :
    (l.map (fun e => (root ++ e.rel, e.isFile))).filterMap
      (fun pe => if pe.2 then stripRoot root pe.1 else none)
      = (l.filter (fun e => e.isFile)).map (fun e => e.rel) := by
  induction l with
  | nil => rfl
  | cons e es ih =>
    cases h : e.isFile <;>
      simp [List.filterMap_cons, List.filter_cons, h, ih, stripRoot_append]

/-- The archive member list is the relative paths of the regular files. -/
theorem archiveEntries_eq (bd : BuildDir) :
    archiveEntries bd = (bd.entries.filter (fun e => e.isFile)).map (fun e => e.rel) :=
  archiveEntries_aux bd.root bd.entries

/-- The rendered `auto_deploy.sh` contains the download URL. -/
theorem auto_contains_url (u : String) : containsStr (auto_deploy_script u) u :=
  ⟨autoA ++ wget_pre,
   "\"\n" ++ autoB ++ server_name_pre ++ SERVER_IP ++ ";\n" ++ autoC ++ SERVER_IP ++ "\"\n",
   by simp [auto_deploy_script, String.append_assoc]⟩

/-- The rendered `auto_deploy.sh` contains the full `wget` download step
with the URL between its quotes. -/
theorem auto_contains_wget (u : String) :
    containsStr (auto_deploy_script u) (wget_pre ++ u ++ "\"\n") :=
  ⟨autoA, autoB ++ server_name_pre ++ SERVER_IP ++ ";\n" ++ autoC ++ SERVER_IP ++ "\"\n",
   by simp [auto_deploy_script, String.append_assoc]⟩

/-- The rendered `auto_deploy.sh` contains the `server_name` line with
the configured server address. -/
theorem auto_contains_server_name (u : String) :
    containsStr (auto_deploy_script u) (server_name_pre ++ SERVER_IP ++ ";\n") :=
  ⟨autoA ++ wget_pre ++ u ++ "\"\n" ++ autoB, autoC ++ SERVER_IP ++ "\"\n",
   by simp [auto_deploy_script, String.append_assoc]⟩

/-- The rendered `simple_deploy.sh` contains the download URL. -/
theorem simple_contains_url (u : String) : containsStr (simple_deploy u) u :=
  ⟨simpA ++ wget_pre,
   "\"\n" ++ simpB ++ server_name_pre ++ SERVER_IP ++ ";\n" ++ simpC ++ SERVER_IP ++ "\"\n",
   by simp [simple_deploy, String.append_assoc]⟩

/-- The rendered `simple_deploy.sh` contains the full `wget` download
step with the URL between its quotes. -/
theorem simple_contains_wget (u : String) :
    containsStr (simple_deploy u) (wget_pre ++ u ++ "\"\n") :=
  ⟨simpA, simpB ++ server_name_pre ++ SERVER_IP ++ ";\n" ++ simpC ++ SERVER_IP ++ "\"\n",
   by simp [simple_deploy, String.append_assoc]⟩

/-- The rendered `simple_deploy.sh` contains the `server_name` line with
the configured server address. -/
theorem simple_contains_server_name (u : String) :
    containsStr (simple_deploy u) (server_name_pre ++ SERVER_IP ++ ";\n") :=
  ⟨simpA ++ wget_pre ++ u ++ "\"\n" ++ simpB, simpC ++ SERVER_IP ++ "\"\n",
   by simp [simple_deploy, String.append_assoc]⟩

/-- The rendered temporary deploy script of `upload.py` contains the
temporary archive's path (inside its `$(basename ...)` download step). -/
theorem full_contains_archive_path (p : String) :
    containsStr (deploy_script_full p) p :=
  ⟨fullA ++ curl_pre,
   ")\"\n" ++ fullB ++ server_name_pre ++ SERVER_IP ++ ";\n" ++ fullC ++ SERVER_IP ++ "\"\n",
   by simp [deploy_script_full, String.append_assoc]⟩

/-- The rendered temporary deploy script of `upload.py` contains the
`server_name` line with the configured server address. -/
theorem full_contains_server_name (p : String) :
    containsStr (deploy_script_full p) (server_name_pre ++ SERVER_IP ++ ";\n") :=
  ⟨fullA ++ curl_pre ++ p ++ ")\"\n" ++ fullB, fullC ++ SERVER_IP ++ "\"\n",
   by simp [deploy_script_full, String.append_assoc]⟩

/-- The rendered temporary deploy script of `upload.py` contains the
server address itself. -/
theorem full_contains_ip (p : String) :
    containsStr (deploy_script_full p) SERVER_IP :=
  ⟨fullA ++ curl_pre ++ p ++ ")\"\n" ++ fullB ++ server_name_pre,
   ";\n" ++ fullC ++ SERVER_IP ++ "\"\n",
   by simp [deploy_script_full, String.append_assoc]⟩

/-- Every branch of the `try` body of `deploy_simple.py` runs the curl
subprocess. -/
theorem main_s_body_uploads (env : SimpleEnv) (p : String) :
    uploadsAttempted (main_s_body env p).1 = true := by
  cases hb : env.bodyRaises
  · by_cases hc : env.curlCode = 0
    · rcases hparse : env.parse with _ | ⟨s, l⟩
      · simp [main_s_body, hb, hc, hparse, uploadsAttempted, isNet]
      · rcases l with _ | ⟨url⟩
        · simp [main_s_body, hb, hc, hparse, uploadsAttempted, isNet]
        · by_cases hcond : s = true ∧ url ≠ "" <;>
            simp [main_s_body, hb, hc, hparse, hcond, uploadsAttempted, isNet]
    · simp [main_s_body, hb, hc, uploadsAttempted, isNet]
  · simp [main_s_body, hb, uploadsAttempted, isNet]

/-- When the temporary-script write does not raise, the `try` body of
`upload.py` runs the curl subprocess. -/
theorem upload_body_uploads (env : UploadEnv) (p : String)
    (hs : env.scriptRaises = false) :
    uploadsAttempted (upload_body env p).1 = true := by
  by_cases hcu : env.curlOk = true ∧ pyStrip env.curlStdout ≠ "" <;>
    simp [upload_body, hs, hcu, uploadsAttempted, isNet]

/-- The `try` body of `deploy_simple.py` lets an exception escape exactly
when the environment raises one (nothing in the body catches it). -/
theorem main_s_body_exc (env : SimpleEnv) (p : String) :
    (main_s_body env p).2 = env.bodyRaises := by
  cases hb : env.bodyRaises
  · by_cases hc : env.curlCode = 0
    · rcases hparse : env.parse with _ | ⟨s, l⟩
      · simp [main_s_body, hb, hc, hparse]
      · rcases l with _ | ⟨url⟩
        · simp [main_s_body, hb, hc, hparse]
        · by_cases hcond : s = true ∧ url ≠ "" <;>
            simp [main_s_body, hb, hc, hparse, hcond]
    · simp [main_s_body, hb, hc]
  · simp [main_s_body, hb]

/-- When the upload does not succeed with a parsed URL, the `try` body of
`deploy_simple.py` writes no `auto_deploy.sh`. -/
theorem main_s_body_no_write (env : SimpleEnv) (p : String)
    (hfail : ¬ (env.curlCode = 0 ∧ ∃ url, env.parse = .parsed true (some url) ∧ url ≠ "")) :
    writesFile (main_s_body env p).1 "auto_deploy.sh" = false := by
  cases hb : env.bodyRaises
  · by_cases hc : env.curlCode = 0
    · rcases hparse : env.parse with _ | ⟨s, l⟩
      · simp [main_s_body, hb, hc, hparse, writesFile, isWriteOf]
      · rcases l with _ | ⟨url⟩
        · simp [main_s_body, hb, hc, hparse, writesFile, isWriteOf]
        · by_cases hcond : s = true ∧ url ≠ ""
          · exact absurd ⟨hc, url, by rw [hparse, hcond.1], hcond.2⟩ hfail
          · simp [main_s_body, hb, hc, hparse, hcond, writesFile, isWriteOf]
    · simp [main_s_body, hb, hc, writesFile, isWriteOf]
  · simp [main_s_body, hb, writesFile, isWriteOf]

/-- When the upload fails, the `try` body of `upload.py` writes no
`simple_deploy.sh` (the temporary script file has a different name). -/
theorem upload_body_no_write (env : UploadEnv) (p : String)
    (hfailU : ¬ (env.curlOk = true ∧ pyStrip env.curlStdout ≠ ""))
    (hts : env.tmpScript ≠ "simple_deploy.sh") :
    writesFile (upload_body env p).1 "simple_deploy.sh" = false := by
  cases hs : env.scriptRaises
  · simp [upload_body, hs, hfailU, writesFile, isWriteOf, hts]
  · simp [upload_body, hs, writesFile, isWriteOf]

/-- Whenever the temporary-script write does not raise, the `try` body of
`upload.py` writes the temporary script file, on both upload outcomes. -/
theorem upload_body_writes_script (env : UploadEnv) (p : String)
    (hs : env.scriptRaises = false) :
    writesFile (upload_body env p).1 env.tmpScript = true := by
  by_cases hcu : env.curlOk = true ∧ pyStrip env.curlStdout ≠ "" <;>
    simp [upload_body, hs, hcu, writesFile, isWriteOf]

/-- Whenever the temporary-script write does not raise, the `try` body of
`upload.py` creates the temporary script file. -/
theorem upload_body_creates_script (env : UploadEnv) (p : String)
    (hs : env.scriptRaises = false) :
    (upload_body env p).1.any (isTempCreateOf env.tmpScript) = true := by
  by_cases hcu : env.curlOk = true ∧ pyStrip env.curlStdout ≠ "" <;>
    simp [upload_body, hs, hcu, isTempCreateOf]

/-- The `try` body of `upload.py` never unlinks anything. -/
theorem upload_body_no_unlink (env : UploadEnv) (p q : String) :
    (upload_body env p).1.any (isUnlinkOf q) = false := by
  cases hs : env.scriptRaises
  · by_cases hcu : env.curlOk = true ∧ pyStrip env.curlStdout ≠ "" <;>
      simp [upload_body, hs, hcu, isUnlinkOf]
  · simp [upload_body, hs, isUnlinkOf]

/-- On a successful parsed upload, the `try` body of `deploy_simple.py`
writes `auto_deploy.sh` with exactly the rendered template. -/
theorem main_s_body_written (env : SimpleEnv) (p u : String)
    (hb : env.bodyRaises = false) (hc : env.curlCode = 0)
    (hr : env.parse = .parsed true (some u)) (hu : u ≠ "") :
    writtenContents (main_s_body env p).1 "auto_deploy.sh" = [auto_deploy_script u] := by
  simp [main_s_body, hb, hc, hr, hu, writtenContents]

/-- On a successful upload, the `try` body of `upload.py` writes
`simple_deploy.sh` with exactly the rendered template of the stripped
stdout, and returns `True`. -/
theorem upload_body_written (env : UploadEnv) (p u : String)
    (hs : env.scriptRaises = false) (hc : env.curlOk = true)
    (hst : pyStrip env.curlStdout = u) (hu : u ≠ "")
    (hts : env.tmpScript ≠ "simple_deploy.sh") :
    writtenContents (upload_body env p).1 "simple_deploy.sh" = [simple_deploy u] ∧
    (upload_body env p).2 = true := by
  have hcu : env.curlOk = true ∧ pyStrip env.curlStdout ≠ "" :=
    ⟨hc, by rw [hst]; exact hu⟩
  simp [upload_body, hs, hcu, writtenContents, hts, hst, hu]

/-! ### Claims -/

/-- Claim C1: for every existing build directory, `create_archive`
(`deploy_simple.py`) and `create_build_archive` (`upload.py`) write a
tar whose member list is exactly the relative paths of the regular files
of the recursive listing — `N` entries, one per regular file, no
directory entries and no absolute paths — and each member name satisfies
the membership characterisation against the directory listing. -/
theorem claim_C1 (env : SimpleEnv) (envU : UploadEnv)
    (hp : env.build.present = true) (ht : env.tarRaises = false)
    (hpU : envU.build.present = true) (htU : envU.tarRaises = false) :
    tarEntriesWritten (create_archive_s env).1
        = [(env.build.entries.filter (fun e => e.isFile)).map (fun e => e.rel)] ∧
    tarEntriesWritten (create_build_archive_s envU).1
        = [(envU.build.entries.filter (fun e => e.isFile)).map (fun e => e.rel)] ∧
    (∀ p, p ∈ archiveEntries env.build ↔
      ∃ e, e ∈ env.build.entries ∧ e.isFile = true ∧ e.rel = p) := by
  refine ⟨?_, ?_, ?_⟩
  · simp [create_archive_s, hp, ht, tarEntriesWritten, archiveEntries_eq]
  · simp [create_build_archive_s, hpU, htU, tarEntriesWritten, archiveEntries_eq]
  · intro p
    rw [archiveEntries_eq]
    simp [List.mem_map, List.mem_filter, and_assoc]

/-- Claim C1 witness: the archive correspondence evaluated on a concrete
two-file build directory. -/
theorem claim_C1_witness :
    envC1.build.present = true ∧ envC1.tarRaises = false ∧
    envC1U.build.present = true ∧ envC1U.tarRaises = false ∧
    (tarEntriesWritten (create_archive_s envC1).1
        = [(envC1.build.entries.filter (fun e => e.isFile)).map (fun e => e.rel)] ∧
     tarEntriesWritten (create_build_archive_s envC1U).1
        = [(envC1U.build.entries.filter (fun e => e.isFile)).map (fun e => e.rel)] ∧
     (∀ p, p ∈ archiveEntries envC1.build ↔
       ∃ e, e ∈ envC1.build.entries ∧ e.isFile = true ∧ e.rel = p)) :=
  ⟨rfl, rfl, rfl, rfl, claim_C1 envC1 envC1U rfl rfl rfl rfl⟩

/-- Claim C2 counterexample: in `upload.py`, a run whose upload fails
(`run_command` reports failure) has already written a fully rendered
deploy script to the temporary `.sh` file, which moreover persists — so
"no deploy script file is written" is false as stated, even though
neither `auto_deploy.sh` nor `simple_deploy.sh` is written. -/
theorem claim_C2_counterexample :
    (upload_main envC2).2 = 1 ∧
    writesFile (upload_main envC2).1 "simple_deploy.sh" = false ∧
    writesFile (upload_main envC2).1 "auto_deploy.sh" = false ∧
    writtenContents (upload_main envC2).1 "/tmp/script2.sh"
      = [deploy_script_full "/tmp/arch2.tar.gz"] ∧
    fileRemains (upload_main envC2).1 "/tmp/script2.sh" = true := by
  refine ⟨?_, ?_, ?_, rfl, ?_⟩ <;> decide

/-- Claim C2 (amended): for every run whose upload fails (non-zero curl
status, empty or unparsed response), the emitted deploy script —
`auto_deploy.sh` in `deploy_simple.py`, `simple_deploy.sh` in
`upload.py` — is not written; however, in `upload.py` a fully rendered
deploy script has already been written to the temporary `.sh` file
before the upload and remains on disk. -/
theorem claim_C2_amended (env : SimpleEnv) (envU : UploadEnv)
    (hfail : ¬ (env.curlCode = 0 ∧ ∃ url, env.parse = .parsed true (some url) ∧ url ≠ ""))
    (hfailU : ¬ (envU.curlOk = true ∧ pyStrip envU.curlStdout ≠ ""))
    (htsU : envU.tmpScript ≠ "simple_deploy.sh") :
    writesFile (main_s env).1 "auto_deploy.sh" = false ∧
    writesFile (upload_main envU).1 "simple_deploy.sh" = false ∧
    (envU.build.present = true → envU.tarRaises = false → envU.scriptRaises = false →
      envU.tmpScript ≠ envU.tmpArchive →
      writesFile (upload_main envU).1 envU.tmpScript = true ∧
      fileRemains (upload_main envU).1 envU.tmpScript = true) := by
  refine ⟨?_, ?_, ?_⟩
  · cases hp : env.build.present
    · simp [main_s, create_archive_s, hp, writesFile, isWriteOf]
    · cases ht : env.tarRaises
      · have h1 : create_archive_s env
            = ([.info "Creating build archive...", .tempCreate env.tmpName,
                .tarWrite env.tmpName (archiveEntries env.build),
                .info ("Archive created: " ++ env.tmpName)], .ret (some env.tmpName)) := by
          simp [create_archive_s, hp, ht]
        simp only [main_s, h1]
        have hnw := main_s_body_no_write env env.tmpName hfail
        simp [writesFile, List.any_append, isWriteOf] at hnw ⊢
        exact hnw
      · simp [main_s, create_archive_s, hp, ht, writesFile, isWriteOf]
  · cases hpU : envU.build.present
    · simp [upload_main, upload_and_deploy, create_build_archive_s, hpU,
        writesFile, isWriteOf]
    · cases htU : envU.tarRaises
      · have h2 : create_build_archive_s envU
            = ([.info "📦 Creating build archive...", .tempCreate envU.tmpArchive,
                .tarWrite envU.tmpArchive (archiveEntries envU.build),
                .info ("✅ Build archive created: " ++ envU.tmpArchive)],
               .ret (some envU.tmpArchive)) := by
          simp [create_build_archive_s, hpU, htU]
        simp only [upload_main, upload_and_deploy, h2]
        have hnw := upload_body_no_write envU envU.tmpArchive hfailU htsU
        rcases hcase : (upload_body envU envU.tmpArchive).2 <;>
          simp [hcase, writesFile, List.any_append, isWriteOf] at hnw ⊢ <;>
          exact hnw
      · simp [upload_main, upload_and_deploy, create_build_archive_s, hpU, htU,
          writesFile, isWriteOf]
  · intro hpU htU hsU hd
    have h2 : create_build_archive_s envU
        = ([.info "📦 Creating build archive...", .tempCreate envU.tmpArchive,
            .tarWrite envU.tmpArchive (archiveEntries envU.build),
            .info ("✅ Build archive created: " ++ envU.tmpArchive)],
           .ret (some envU.tmpArchive)) := by
      simp [create_build_archive_s, hpU, htU]
    have hws := upload_body_writes_script envU envU.tmpArchive hsU
    have hcr := upload_body_creates_script envU envU.tmpArchive hsU
    have hnu := upload_body_no_unlink envU envU.tmpArchive envU.tmpScript
    constructor
    · simp only [upload_main, upload_and_deploy, h2]
      rcases hcase : (upload_body envU envU.tmpArchive).2 <;>
        simp [hcase, writesFile, List.any_append, isWriteOf] at hws ⊢ <;>
        exact hws
    · simp only [upload_main, upload_and_deploy, h2]
      rcases hcase : (upload_body envU envU.tmpArchive).2 <;>
        simp [hcase, fileRemains, List.any_append, isTempCreateOf, isUnlinkOf,
          hnu, hcr, Ne.symm hd]

/-- Claim C2 witness: the amended claim evaluated on one failing run of
each variant. -/
theorem claim_C2_witness :
    (¬ (envC2w.curlCode = 0 ∧
        ∃ url, envC2w.parse = .parsed true (some url) ∧ url ≠ "")) ∧
    (¬ (envC2wU.curlOk = true ∧ pyStrip envC2wU.curlStdout ≠ "")) ∧
    envC2wU.tmpScript ≠ "simple_deploy.sh" ∧
    (writesFile (main_s envC2w).1 "auto_deploy.sh" = false ∧
     writesFile (upload_main envC2wU).1 "simple_deploy.sh" = false ∧
     (envC2wU.build.present = true → envC2wU.tarRaises = false →
      envC2wU.scriptRaises = false → envC2wU.tmpScript ≠ envC2wU.tmpArchive →
      writesFile (upload_main envC2wU).1 envC2wU.tmpScript = true ∧
      fileRemains (upload_main envC2wU).1 envC2wU.tmpScript = true)) := by
  have pf1 : ¬ (envC2w.curlCode = 0 ∧
      ∃ url, envC2w.parse = .parsed true (some url) ∧ url ≠ "") :=
    fun h => absurd h.1 (by decide)
  have pf2 : ¬ (envC2wU.curlOk = true ∧ pyStrip envC2wU.curlStdout ≠ "") :=
    fun h => absurd h.1 (by decide)
  have pf3 : envC2wU.tmpScript ≠ "simple_deploy.sh" := by decide
  exact ⟨pf1, pf2, pf3, claim_C2_amended envC2w envC2wU pf1 pf2 pf3⟩

/-- Claim C3 counterexample: an exception raised while writing the tar —
after `NamedTemporaryFile` has created the file, `deploy_simple.py`
lines 27-31 / `upload.py` lines 41-46, which are outside the
`try`/`finally` — propagates without the `finally` cleanup ever running,
so the temporary archive file still exists when the process exits. -/
theorem claim_C3_counterexample :
    (main_s envC3).2 = 1 ∧
    fileRemains (main_s envC3).1 "/tmp/c3.tar.gz" = true ∧
    (upload_main envC3U).2 = 1 ∧
    fileRemains (upload_main envC3U).1 "/tmp/c3u.tar.gz" = true := by
  refine ⟨?_, ?_, ?_, ?_⟩ <;> decide

/-- Claim C3 (amended): for every run in which the archiving step itself
does not raise, the temporary archive file does not survive the process
— on normal completion, upload failure, parse failure, missing build
directory, and unexpected exceptions in the post-archive steps; an
exception inside the archiving step after the temporary file is created
leaks it. -/
theorem claim_C3_amended (env : SimpleEnv) (envU : UploadEnv)
    (ht : env.tarRaises = false) (htU : envU.tarRaises = false) :
    fileRemains (main_s env).1 env.tmpName = false ∧
    fileRemains (upload_main envU).1 envU.tmpArchive = false := by
  constructor
  · cases hp : env.build.present
    · simp [main_s, create_archive_s, hp, fileRemains, isTempCreateOf, isUnlinkOf]
    · have h1 : create_archive_s env
          = ([.info "Creating build archive...", .tempCreate env.tmpName,
              .tarWrite env.tmpName (archiveEntries env.build),
              .info ("Archive created: " ++ env.tmpName)], .ret (some env.tmpName)) := by
        simp [create_archive_s, hp, ht]
      simp only [main_s, h1]
      simp [fileRemains, List.any_append, isUnlinkOf]
  · cases hpU : envU.build.present
    · simp [upload_main, upload_and_deploy, create_build_archive_s, hpU,
        fileRemains, isTempCreateOf, isUnlinkOf]
    · have h2 : create_build_archive_s envU
          = ([.info "📦 Creating build archive...", .tempCreate envU.tmpArchive,
              .tarWrite envU.tmpArchive (archiveEntries envU.build),
              .info ("✅ Build archive created: " ++ envU.tmpArchive)],
             .ret (some envU.tmpArchive)) := by
        simp [create_build_archive_s, hpU, htU]
      simp only [upload_main, upload_and_deploy, h2]
      rcases hcase : (upload_body envU envU.tmpArchive).2 <;>
        simp [hcase, fileRemains, List.any_append, isUnlinkOf]

/-- Claim C3 witness: the amended cleanup property evaluated on a
failed-upload run and a missing-directory run. -/
theorem claim_C3_witness :
    envC3w.tarRaises = false ∧ envC3wU.tarRaises = false ∧
    (fileRemains (main_s envC3w).1 envC3w.tmpName = false ∧
     fileRemains (upload_main envC3wU).1 envC3wU.tmpArchive = false) :=
  ⟨rfl, rfl, claim_C3_amended envC3w envC3wU rfl rfl⟩

/-- Claim C4: when the build directory does not exist, neither variant
runs the curl subprocess or writes any file; both print an error report,
and `upload.py` exits with status 1 (`deploy_simple.py`'s failure
indication is the printed error — see claim C5 for its exit status). -/
theorem claim_C4 (env : SimpleEnv) (envU : UploadEnv)
    (hp : env.build.present = false) (hpU : envU.build.present = false) :
    uploadsAttempted (main_s env).1 = false ∧
    writesAnyFile (main_s env).1 = false ∧
    reportsError (main_s env).1 = true ∧
    uploadsAttempted (upload_main envU).1 = false ∧
    writesAnyFile (upload_main envU).1 = false ∧
    reportsError (upload_main envU).1 = true ∧
    (upload_main envU).2 = 1 := by
  refine ⟨?_, ?_, ?_, ?_, ?_, ?_, ?_⟩ <;>
    simp [main_s, create_archive_s, upload_main, upload_and_deploy,
      create_build_archive_s, hp, hpU, uploadsAttempted, writesAnyFile,
      reportsError, isNet, isAnyWrite, isErr]

/-- Claim C4 witness: the missing-build-directory behaviour evaluated on
concrete runs of both variants. -/
theorem claim_C4_witness :
    envC4.build.present = false ∧ envC4U.build.present = false ∧
    (uploadsAttempted (main_s envC4).1 = false ∧
     writesAnyFile (main_s envC4).1 = false ∧
     reportsError (main_s envC4).1 = true ∧
     uploadsAttempted (upload_main envC4U).1 = false ∧
     writesAnyFile (upload_main envC4U).1 = false ∧
     reportsError (upload_main envC4U).1 = true ∧
     (upload_main envC4U).2 = 1) :=
  ⟨rfl, rfl, claim_C4 envC4 envC4U rfl rfl⟩

/-- Claim C5 counterexample: two totally failing runs of
`deploy_simple.py` — a missing build directory and a curl exit status 23
— both end with process exit status 0 (`main` just `return`s; the script
never calls `sys.exit`), refuting "non-zero exit status on every total
failure". -/
theorem claim_C5_counterexample :
    ((main_s envC5).2 = 0 ∧ reportsError (main_s envC5).1 = true ∧
      uploadsAttempted (main_s envC5).1 = false) ∧
    ((main_s envC5b).2 = 0 ∧ reportsError (main_s envC5b).1 = true ∧
      writesAnyFile (main_s envC5b).1 = false) := by
  refine ⟨⟨?_, ?_, ?_⟩, ⟨?_, ?_, ?_⟩⟩ <;> decide

/-- Claim C5 (amended): `upload.py` exits 0 exactly on full success
(archive created, no exception, upload succeeded with non-empty stripped
response) and 1 otherwise; `deploy_simple.py` exits non-zero only when
an unexpected exception escapes (in the tar-writing step or the `try`
body) — it exits 0 on missing-build-directory, failed-upload and
unparseable-response runs. -/
theorem claim_C5_amended (env : SimpleEnv) (envU : UploadEnv) :
    ((main_s env).2 = 0 ↔
      ¬ (env.build.present = true ∧ (env.tarRaises = true ∨ env.bodyRaises = true))) ∧
    ((upload_main envU).2 = 0 ↔
      (envU.build.present = true ∧ envU.tarRaises = false ∧ envU.scriptRaises = false ∧
       envU.curlOk = true ∧ pyStrip envU.curlStdout ≠ "")) := by
  constructor
  · cases hp : env.build.present
    · simp [main_s, create_archive_s, hp]
    · cases ht : env.tarRaises
      · have h1 : create_archive_s env
            = ([.info "Creating build archive...", .tempCreate env.tmpName,
                .tarWrite env.tmpName (archiveEntries env.build),
                .info ("Archive created: " ++ env.tmpName)], .ret (some env.tmpName)) := by
          simp [create_archive_s, hp, ht]
        simp only [main_s, h1]
        have hb := main_s_body_exc env env.tmpName
        cases hbr : env.bodyRaises <;> rw [hbr] at hb <;> simp [hb, hp, ht, hbr]
      · simp [main_s, create_archive_s, hp, ht]
  · cases hpU : envU.build.present
    · simp [upload_main, upload_and_deploy, create_build_archive_s, hpU]
    · cases htU : envU.tarRaises
      · have h2 : create_build_archive_s envU
            = ([.info "📦 Creating build archive...", .tempCreate envU.tmpArchive,
                .tarWrite envU.tmpArchive (archiveEntries envU.build),
                .info ("✅ Build archive created: " ++ envU.tmpArchive)],
               .ret (some envU.tmpArchive)) := by
          simp [create_build_archive_s, hpU, htU]
        simp only [upload_main, upload_and_deploy, h2]
        cases hsU : envU.scriptRaises
        · by_cases hcu : envU.curlOk = true ∧ pyStrip envU.curlStdout ≠ ""
          · have hb : (upload_body envU envU.tmpArchive).2 = true := by
              simp [upload_body, hsU, hcu]
            simp [hb, hpU, htU, hsU, hcu.1, hcu.2]
          · have hb : (upload_body envU envU.tmpArchive).2 = false := by
              simp [upload_body, hsU, hcu]
            simp only [hb]
            simp [hpU, htU, hsU]
            intro hc
            by_contra hne
            exact hcu ⟨hc, hne⟩
        · have hb : (upload_body envU envU.tmpArchive).2 = false := by
            simp [upload_body, hsU]
          simp [hb, hsU]
      · simp [upload_main, upload_and_deploy, create_build_archive_s, hpU, htU]

/-- Claim C6 counterexample: when the build directory is missing, the
archiver of both variants returns normally with the `None` sentinel —
it raises no exception at all, so in particular no `MissingInputError`
(no such type exists in the code); the error is only printed. -/
theorem claim_C6_counterexample :
    raisesExc (create_archive_s envC6).2 = false ∧
    raisesExc (create_build_archive_s envC6U).2 = false ∧
    (create_archive_s envC6).2 = .ret none ∧
    (create_build_archive_s envC6U).2 = .ret none ∧
    reportsError (create_archive_s envC6).1 = true ∧
    reportsError (create_build_archive_s envC6U).1 = true := by
  refine ⟨rfl, rfl, rfl, rfl, ?_, ?_⟩ <;> decide

/-- Claim C6 (amended): when the build directory does not exist, the
archiver prints an error for the operator and returns the `None`
sentinel (it does not raise a `MissingInputError` — no exception is
raised and no such type exists), and the pipeline halts before any
network activity. -/
theorem claim_C6_amended (env : SimpleEnv) (envU : UploadEnv)
    (hp : env.build.present = false) (hpU : envU.build.present = false) :
    (create_archive_s env).2 = .ret none ∧
    reportsError (create_archive_s env).1 = true ∧
    uploadsAttempted (main_s env).1 = false ∧
    (create_build_archive_s envU).2 = .ret none ∧
    reportsError (create_build_archive_s envU).1 = true ∧
    uploadsAttempted (upload_main envU).1 = false := by
  refine ⟨?_, ?_, ?_, ?_, ?_, ?_⟩ <;>
    simp [create_archive_s, create_build_archive_s, main_s, upload_main,
      upload_and_deploy, hp, hpU, reportsError, uploadsAttempted, isErr, isNet]

/-- Claim C6 witness: the amended archiver-failure behaviour evaluated
on concrete missing-directory runs. -/
theorem claim_C6_witness :
    envC6.build.present = false ∧ envC6U.build.present = false ∧
    ((create_archive_s envC6).2 = .ret none ∧
     reportsError (create_archive_s envC6).1 = true ∧
     uploadsAttempted (main_s envC6).1 = false ∧
     (create_build_archive_s envC6U).2 = .ret none ∧
     reportsError (create_build_archive_s envC6U).1 = true ∧
     uploadsAttempted (upload_main envC6U).1 = false) :=
  ⟨rfl, rfl, claim_C6_amended envC6 envC6U rfl rfl⟩

/-- Claim C7: the emitted deploy script is a function of exactly the
retrieval URL and the configured server address — two successful runs of
either variant with the same URL write byte-identical `auto_deploy.sh` /
`simple_deploy.sh` contents, equal to the rendered template of that URL,
whatever the temporary file names and raw curl output were. -/
theorem claim_C7 (u : String) (e1 e2 : SimpleEnv) (f1 f2 : UploadEnv)
    (h1p : e1.build.present = true) (h1t : e1.tarRaises = false)
    (h1b : e1.bodyRaises = false) (h1c : e1.curlCode = 0)
    (h1r : e1.parse = .parsed true (some u))
    (h2p : e2.build.present = true) (h2t : e2.tarRaises = false)
    (h2b : e2.bodyRaises = false) (h2c : e2.curlCode = 0)
    (h2r : e2.parse = .parsed true (some u))
    (hu : u ≠ "")
    (g1p : f1.build.present = true) (g1t : f1.tarRaises = false)
    (g1s : f1.scriptRaises = false) (g1c : f1.curlOk = true)
    (g1u : pyStrip f1.curlStdout = u) (g1n : f1.tmpScript ≠ "simple_deploy.sh")
    (g2p : f2.build.present = true) (g2t : f2.tarRaises = false)
    (g2s : f2.scriptRaises = false) (g2c : f2.curlOk = true)
    (g2u : pyStrip f2.curlStdout = u) (g2n : f2.tmpScript ≠ "simple_deploy.sh") :
    writtenContents (main_s e1).1 "auto_deploy.sh" = [auto_deploy_script u] ∧
    writtenContents (main_s e2).1 "auto_deploy.sh" = [auto_deploy_script u] ∧
    writtenContents (main_s e1).1 "auto_deploy.sh"
      = writtenContents (main_s e2).1 "auto_deploy.sh" ∧
    writtenContents (upload_main f1).1 "simple_deploy.sh" = [simple_deploy u] ∧
    writtenContents (upload_main f2).1 "simple_deploy.sh" = [simple_deploy u] ∧
    writtenContents (upload_main f1).1 "simple_deploy.sh"
      = writtenContents (upload_main f2).1 "simple_deploy.sh" := by
  have we : ∀ (e : SimpleEnv), e.build.present = true → e.tarRaises = false →
      e.bodyRaises = false → e.curlCode = 0 → e.parse = .parsed true (some u) →
      writtenContents (main_s e).1 "auto_deploy.sh" = [auto_deploy_script u] := by
    intro e hp ht hb hc hr
    have h1 : create_archive_s e
        = ([.info "Creating build archive...", .tempCreate e.tmpName,
            .tarWrite e.tmpName (archiveEntries e.build),
            .info ("Archive created: " ++ e.tmpName)], .ret (some e.tmpName)) := by
      simp [create_archive_s, hp, ht]
    simp only [main_s, h1]
    have hw := main_s_body_written e e.tmpName u hb hc hr hu
    simp [writtenContents, List.filterMap_append] at hw ⊢
    exact hw
  have wf : ∀ (f : UploadEnv), f.build.present = true → f.tarRaises = false →
      f.scriptRaises = false → f.curlOk = true → pyStrip f.curlStdout = u →
      f.tmpScript ≠ "simple_deploy.sh" →
      writtenContents (upload_main f).1 "simple_deploy.sh" = [simple_deploy u] := by
    intro f hp ht hs hc hst hts
    have h2 : create_build_archive_s f
        = ([.info "📦 Creating build archive...", .tempCreate f.tmpArchive,
            .tarWrite f.tmpArchive (archiveEntries f.build),
            .info ("✅ Build archive created: " ++ f.tmpArchive)],
           .ret (some f.tmpArchive)) := by
      simp [create_build_archive_s, hp, ht]
    have hw := upload_body_written f f.tmpArchive u hs hc hst hu hts
    simp only [upload_main, upload_and_deploy, h2, hw.2]
    have hw1 := hw.1
    simp [writtenContents, List.filterMap_append] at hw1 ⊢
    exact hw1
  have w1 := we e1 h1p h1t h1b h1c h1r
  have w2 := we e2 h2p h2t h2b h2c h2r
  have w3 := wf f1 g1p g1t g1s g1c g1u g1n
  have w4 := wf f2 g2p g2t g2s g2c g2u g2n
  exact ⟨w1, w2, w1.trans w2.symm, w3, w4, w3.trans w4.symm⟩

/-- Claim C7 witness: determinism evaluated on two pairs of concrete
runs that differ in temporary file names and raw curl stdout. -/
theorem claim_C7_witness :
    envC7e1.build.present = true ∧ envC7e1.tarRaises = false ∧
    envC7e1.bodyRaises = false ∧ envC7e1.curlCode = 0 ∧
    envC7e1.parse = .parsed true (some u7) ∧
    envC7e2.build.present = true ∧ envC7e2.tarRaises = false ∧
    envC7e2.bodyRaises = false ∧ envC7e2.curlCode = 0 ∧
    envC7e2.parse = .parsed true (some u7) ∧
    u7 ≠ "" ∧
    envC7f1.build.present = true ∧ envC7f1.tarRaises = false ∧
    envC7f1.scriptRaises = false ∧ envC7f1.curlOk = true ∧
    pyStrip envC7f1.curlStdout = u7 ∧ envC7f1.tmpScript ≠ "simple_deploy.sh" ∧
    envC7f2.build.present = true ∧ envC7f2.tarRaises = false ∧
    envC7f2.scriptRaises = false ∧ envC7f2.curlOk = true ∧
    pyStrip envC7f2.curlStdout = u7 ∧ envC7f2.tmpScript ≠ "simple_deploy.sh" ∧
    (writtenContents (main_s envC7e1).1 "auto_deploy.sh" = [auto_deploy_script u7] ∧
     writtenContents (main_s envC7e2).1 "auto_deploy.sh" = [auto_deploy_script u7] ∧
     writtenContents (main_s envC7e1).1 "auto_deploy.sh"
       = writtenContents (main_s envC7e2).1 "auto_deploy.sh" ∧
     writtenContents (upload_main envC7f1).1 "simple_deploy.sh" = [simple_deploy u7] ∧
     writtenContents (upload_main envC7f2).1 "simple_deploy.sh" = [simple_deploy u7] ∧
     writtenContents (upload_main envC7f1).1 "simple_deploy.sh"
       = writtenContents (upload_main envC7f2).1 "simple_deploy.sh") := by
  refine ⟨rfl, rfl, rfl, rfl, rfl, rfl, rfl, rfl, rfl, rfl, by decide,
    rfl, rfl, rfl, rfl, by decide, by decide,
    rfl, rfl, rfl, rfl, by decide, by decide, ?_⟩
  exact claim_C7 u7 envC7e1 envC7e2 envC7f1 envC7f2
    rfl rfl rfl rfl rfl rfl rfl rfl rfl rfl (by decide)
    rfl rfl rfl rfl (by decide) (by decide)
    rfl rfl rfl rfl (by decide) (by decide)

/-- Claim C8: end-to-end scenario — for the build directory holding
`index.html` and `assets/app.js` the archive member list is exactly
those two relative paths; with retrieval URL
`https://example.test/abc123` the emitted scripts of both variants are
exactly the rendered templates, which contain the literal URL inside the
`wget` download step and the configured server address on the
`server_name` line. -/
theorem claim_C8 :
    archiveEntries bd8 = [["index.html"], ["assets", "app.js"]] ∧
    writtenContents (main_s env8).1 "auto_deploy.sh" = [auto_deploy_script u8] ∧
    writtenContents (upload_main env8U).1 "simple_deploy.sh" = [simple_deploy u8] ∧
    containsStr (auto_deploy_script u8) (wget_pre ++ u8 ++ "\"\n") ∧
    containsStr (auto_deploy_script u8) u8 ∧
    containsStr (auto_deploy_script u8) (server_name_pre ++ SERVER_IP ++ ";\n") ∧
    containsStr (simple_deploy u8) (wget_pre ++ u8 ++ "\"\n") ∧
    containsStr (simple_deploy u8) u8 ∧
    containsStr (simple_deploy u8) (server_name_pre ++ SERVER_IP ++ ";\n") :=
  ⟨by decide, rfl, rfl,
   auto_contains_wget u8, auto_contains_url u8, auto_contains_server_name u8,
   simple_contains_wget u8, simple_contains_url u8, simple_contains_server_name u8⟩

/-- Claim C9: in every run of `upload.py` that gets past the archiver,
the fully rendered deployment script — embedding the temporary archive's
path and the server address — is written to the temporary `.sh` file
strictly before the upload subprocess runs, and that file is never
unlinked on any path, so it persists after the process exits, upload
failure included. -/
theorem claim_C9 (env : UploadEnv)
    (hp : env.build.present = true) (ht : env.tarRaises = false)
    (hs : env.scriptRaises = false) (hd : env.tmpScript ≠ env.tmpArchive) :
    (∃ pre post,
      (upload_main env).1
        = pre ++ Event.fileWrite env.tmpScript (deploy_script_full env.tmpArchive) :: post ∧
      uploadsAttempted pre = false ∧
      uploadsAttempted post = true) ∧
    fileRemains (upload_main env).1 env.tmpScript = true ∧
    containsStr (deploy_script_full env.tmpArchive) env.tmpArchive ∧
    containsStr (deploy_script_full env.tmpArchive) SERVER_IP ∧
    containsStr (deploy_script_full env.tmpArchive)
      (server_name_pre ++ SERVER_IP ++ ";\n") := by
  have h2 : create_build_archive_s env
      = ([.info "📦 Creating build archive...", .tempCreate env.tmpArchive,
          .tarWrite env.tmpArchive (archiveEntries env.build),
          .info ("✅ Build archive created: " ++ env.tmpArchive)],
         .ret (some env.tmpArchive)) := by
    simp [create_build_archive_s, hp, ht]
  refine ⟨?_, ?_, full_contains_archive_path _, full_contains_ip _,
    full_contains_server_name _⟩
  · by_cases hcu : env.curlOk = true ∧ pyStrip env.curlStdout ≠ ""
    · have hbody : upload_body env env.tmpArchive
          = ([Event.tempCreate env.tmpScript,
              Event.fileWrite env.tmpScript (deploy_script_full env.tmpArchive),
              Event.info "📤 Uploading archive to transfer.sh...",
              Event.netUpload (upload_cmd_transfer env.tmpArchive),
              Event.info ("✅ Archive uploaded: " ++ pyStrip env.curlStdout),
              Event.fileWrite "simple_deploy.sh" (simple_deploy (pyStrip env.curlStdout))],
             true) := by
        simp [upload_body, hs, hcu]
      refine ⟨[.info "🚀 QB Pharma Deployment Tool", .info "📦 Creating build archive...",
          .tempCreate env.tmpArchive, .tarWrite env.tmpArchive (archiveEntries env.build),
          .info ("✅ Build archive created: " ++ env.tmpArchive),
          .tempCreate env.tmpScript],
        [.info "📤 Uploading archive to transfer.sh...",
          .netUpload (upload_cmd_transfer env.tmpArchive),
          .info ("✅ Archive uploaded: " ++ pyStrip env.curlStdout),
          .fileWrite "simple_deploy.sh" (simple_deploy (pyStrip env.curlStdout)),
          .unlink env.tmpArchive, .info "✅ Deployment preparation completed!"],
        ?_, ?_, ?_⟩
      · simp only [upload_main, upload_and_deploy, h2, hbody]
        simp
      · simp [uploadsAttempted, isNet]
      · simp [uploadsAttempted, isNet]
    · have hbody : upload_body env env.tmpArchive
          = ([Event.tempCreate env.tmpScript,
              Event.fileWrite env.tmpScript (deploy_script_full env.tmpArchive),
              Event.info "📤 Uploading archive to transfer.sh...",
              Event.netUpload (upload_cmd_transfer env.tmpArchive),
              Event.errorMsg ("❌ Failed to upload archive: " ++ env.curlStderr)],
             false) := by
        simp [upload_body, hs, hcu]
      refine ⟨[.info "🚀 QB Pharma Deployment Tool", .info "📦 Creating build archive...",
          .tempCreate env.tmpArchive, .tarWrite env.tmpArchive (archiveEntries env.build),
          .info ("✅ Build archive created: " ++ env.tmpArchive),
          .tempCreate env.tmpScript],
        [.info "📤 Uploading archive to transfer.sh...",
          .netUpload (upload_cmd_transfer env.tmpArchive),
          .errorMsg ("❌ Failed to upload archive: " ++ env.curlStderr),
          .unlink env.tmpArchive, .errorMsg "❌ Deployment failed!"],
        ?_, ?_, ?_⟩
      · simp only [upload_main, upload_and_deploy, h2, hbody]
        simp
      · simp [uploadsAttempted, isNet]
      · simp [uploadsAttempted, isNet]
  · have hcr := upload_body_creates_script env env.tmpArchive hs
    have hnu := upload_body_no_unlink env env.tmpArchive env.tmpScript
    simp only [upload_main, upload_and_deploy, h2]
    rcases hcase : (upload_body env env.tmpArchive).2 <;>
      simp [hcase, fileRemains, List.any_append, isTempCreateOf, isUnlinkOf,
        hcr, hnu, Ne.symm hd]

/-- Claim C9 witness: the temp-script frame effect evaluated on a
concrete successful run. -/
theorem claim_C9_witness :
    envC9.build.present = true ∧ envC9.tarRaises = false ∧
    envC9.scriptRaises = false ∧ envC9.tmpScript ≠ envC9.tmpArchive ∧
    ((∃ pre post,
       (upload_main envC9).1
         = pre ++ Event.fileWrite envC9.tmpScript
             (deploy_script_full envC9.tmpArchive) :: post ∧
       uploadsAttempted pre = false ∧
       uploadsAttempted post = true) ∧
     fileRemains (upload_main envC9).1 envC9.tmpScript = true ∧
     containsStr (deploy_script_full envC9.tmpArchive) envC9.tmpArchive ∧
     containsStr (deploy_script_full envC9.tmpArchive) SERVER_IP ∧
     containsStr (deploy_script_full envC9.tmpArchive)
       (server_name_pre ++ SERVER_IP ++ ";\n")) :=
  ⟨rfl, rfl, rfl, by decide, claim_C9 envC9 rfl rfl rfl (by decide)⟩

/-- Claim C10: an existing but empty build directory is not an error —
both archivers return an archive path (no emptiness check exists), the
tar is written with an empty member list, and the pipeline goes on to
run the upload subprocess. -/
theorem claim_C10 (env : SimpleEnv) (envU : UploadEnv)
    (hp : env.build.present = true) (he : env.build.entries = [])
    (ht : env.tarRaises = false)
    (hpU : envU.build.present = true) (heU : envU.build.entries = [])
    (htU : envU.tarRaises = false) (hsU : envU.scriptRaises = false) :
    (create_archive_s env).2 = .ret (some env.tmpName) ∧
    tarEntriesWritten (create_archive_s env).1 = [[]] ∧
    uploadsAttempted (main_s env).1 = true ∧
    (create_build_archive_s envU).2 = .ret (some envU.tmpArchive) ∧
    tarEntriesWritten (create_build_archive_s envU).1 = [[]] ∧
    uploadsAttempted (upload_main envU).1 = true := by
  have h1 : create_archive_s env
      = ([.info "Creating build archive...", .tempCreate env.tmpName,
          .tarWrite env.tmpName (archiveEntries env.build),
          .info ("Archive created: " ++ env.tmpName)], .ret (some env.tmpName)) := by
    simp [create_archive_s, hp, ht]
  have h2 : create_build_archive_s envU
      = ([.info "📦 Creating build archive...", .tempCreate envU.tmpArchive,
          .tarWrite envU.tmpArchive (archiveEntries envU.build),
          .info ("✅ Build archive created: " ++ envU.tmpArchive)],
         .ret (some envU.tmpArchive)) := by
    simp [create_build_archive_s, hpU, htU]
  refine ⟨?_, ?_, ?_, ?_, ?_, ?_⟩
  · simp [h1]
  · simp [h1, tarEntriesWritten, archiveEntries_eq, he]
  · simp only [main_s, h1]
    simp [uploadsAttempted, List.any_append, isNet]
    simpa [uploadsAttempted] using main_s_body_uploads env env.tmpName
  · simp [h2]
  · simp [h2, tarEntriesWritten, archiveEntries_eq, heU]
  · simp only [upload_main, upload_and_deploy, h2]
    have hb := upload_body_uploads envU envU.tmpArchive hsU
    rcases hcase : (upload_body envU envU.tmpArchive).2 <;>
      simp [hcase, uploadsAttempted, List.any_append, isNet] <;>
      simpa [uploadsAttempted] using hb

/-- Claim C10 witness: the empty-directory behaviour evaluated on
concrete runs of both variants. -/
theorem claim_C10_witness :
    envC10.build.present = true ∧ envC10.build.entries = [] ∧
    envC10.tarRaises = false ∧
    envC10U.build.present = true ∧ envC10U.build.entries = [] ∧
    envC10U.tarRaises = false ∧ envC10U.scriptRaises = false ∧
    ((create_archive_s envC10).2 = .ret (some envC10.tmpName) ∧
     tarEntriesWritten (create_archive_s envC10).1 = [[]] ∧
     uploadsAttempted (main_s envC10).1 = true ∧
     (create_build_archive_s envC10U).2 = .ret (some envC10U.tmpArchive) ∧
     tarEntriesWritten (create_build_archive_s envC10U).1 = [[]] ∧
     uploadsAttempted (upload_main envC10U).1 = true) :=
  ⟨rfl, rfl, rfl, rfl, rfl, rfl, rfl,
   claim_C10 envC10 envC10U rfl rfl rfl rfl rfl rfl rfl⟩

end QbPharma
